import Mathlib

/-
Verification of the reset-cycle tracking core of onWatch (CopilotTracker).

Shallow embedding conventions:
* Timestamps and durations are `Int` nanoseconds (Go `time.Time` / `time.Duration`
  have nanosecond resolution; `t1.After t2` is `t2 < t1`).
* The Go reset-date marker is the RFC3339Nano formatting of `*time.Time`
  (the empty string when nil).  All markers flow through the same UTC parsing
  path, so the formatting is injective and string equality coincides with
  time equality; the marker is therefore embedded as `Option Int`
  (`none` = empty string).
* Go maps `map[string]V` are embedded as `String → Option V`.
* Go `float64` arithmetic in the summary engine is embedded as exact `Rat`
  arithmetic; `int(x)` conversion truncates toward zero (`ratTrunc`).
* The `internal/store` package is not part of the sources; its operations are
  modelled from the spec's storage contract (§6), see the `Store` section.
-/

namespace OnWatch

/-- One normalized Copilot quota reading (internal/api/copilot_types.go, CopilotQuota). -/
structure CopilotQuota where
  name : String
  entitlement : Int
  remaining : Int
  percentRemaining : Rat
  unlimited : Bool
  deriving Repr, DecidableEq

/-- A point-in-time capture of all Copilot quotas
(internal/api/copilot_types.go, CopilotSnapshot).  `resetDate` doubles as the
reset marker: the Go code formats it to `resetDateStr` for comparison. -/
structure CopilotSnapshot where
  capturedAt : Int
  quotas : List CopilotQuota
  resetDate : Option Int
  deriving Repr, DecidableEq

/-- A tracked reset cycle for one quota name (store row; spec §3).
`cycleEnd = none` means the cycle is still active. -/
structure Cycle where
  quotaName : String
  cycleStart : Int
  cycleEnd : Option Int
  peakUsed : Int
  totalDelta : Int
  resetDate : Option Int
  deriving Repr, DecidableEq

/-- Modelled from the spec: the Cycle Store (internal/store is not in the
sources; spec §6 gives its contract).  `active` holds the at-most-one open
cycle per quota name, `history` the closed cycles in closing order (so
`queryCycleHistory` returns them oldest-first, as §6 requires), and `latest`
the most recently inserted raw snapshot for `QueryLatestCopilot`. -/
structure Store where
  active : String → Option Cycle
  history : List Cycle
  latest : Option CopilotSnapshot

/-- Modelled from the spec: `QueryActiveCycle` returns the single open cycle
for this name, or none. -/
def Store.queryActiveCycle (s : Store) (n : String) : Option Cycle :=
  s.active n

/-- Modelled from the spec: `CreateCycle(quotaName, start, resetDate)` creates
a new open cycle (the tracker only calls it when no cycle is open for the
name); stats start at zero and are set by the following `UpdateCycle`. -/
def Store.createCycle (s : Store) (n : String) (start : Int) (rd : Option Int) : Store :=
  let c : Cycle :=
    { quotaName := n, cycleStart := start, cycleEnd := none,
      peakUsed := 0, totalDelta := 0, resetDate := rd }
  { s with active := fun m => if m = n then some c else s.active m }

/-- Modelled from the spec: `UpdateCycle` overwrites the mutable stats of the
currently open cycle for this name. -/
def Store.updateCycle (s : Store) (n : String) (peak delta : Int) : Store :=
  { s with active := fun m => if m = n then
      (s.active n).map (fun c => { c with peakUsed := peak, totalDelta := delta })
    else s.active m }

/-- Modelled from the spec: `CloseCycle` marks the open cycle closed with final
stats; the closed row becomes immutable history (appended, hence oldest-first). -/
def Store.closeCycle (s : Store) (n : String) (endT : Int) (finalPeak finalDelta : Int) : Store :=
  match s.active n with
  | none => s
  | some c =>
      { s with
        active := fun m => if m = n then none else s.active m,
        history := s.history ++
          [{ c with cycleEnd := some endT, peakUsed := finalPeak, totalDelta := finalDelta }] }

/-- Modelled from the spec: `QueryCycleHistory` returns all closed cycles for
this name, ordered oldest-first. -/
def Store.queryCycleHistory (s : Store) (n : String) : List Cycle :=
  s.history.filter (fun c => c.quotaName = n)

/-- In-memory tracker state (part_005, CopilotTracker struct):
`lastValues` maps quota name to last remaining count, `lastResets` to the last
reset marker recorded for it (`some none` = an entry holding the empty
string), `callbackRegistered` models `onReset != nil`. -/
structure TrackerState where
  store : Store
  lastValues : String → Option Int
  lastResets : String → Option (Option Int)
  hasLastValues : Bool
  callbackRegistered : Bool

/-- Point update of a string-keyed map. -/
def updMap {α : Type} (m : String → α) (k : String) (v : α) : String → α :=
  fun n => if n = k then v else m n

/-- `currentUsed := quota.Entitlement - quota.Remaining` (part_005 line 82). -/
def currentUsedOf (q : CopilotQuota) : Int :=
  q.entitlement - q.remaining

/-- Primary reset signal (part_005 line 112): the stored marker exists and is
non-empty, the current marker is non-empty, and the two differ. -/
def primarySignal (lastReset : Option (Option Int)) (marker : Option Int) : Bool :=
  match lastReset, marker with
  | some (some lastT), some curT => decide (curT ≠ lastT)
  | _, _ => false

/-- Time-based fallback signal (part_005 lines 118-123): the cycle's recorded
reset date has passed and the remaining count increased since last observed. -/
def fallbackSignal (cycle : Cycle) (capturedAt : Int) (lastValue : Option Int)
    (remaining : Int) : Bool :=
  match cycle.resetDate with
  | some rd =>
      decide (rd < capturedAt) &&
        (match lastValue with
         | some lastRemaining => decide (lastRemaining < remaining)
         | none => false)
  | none => false

/-- Combined reset detection (part_005 lines 109-123): the fallback is only
consulted when the primary signal did not fire. -/
def resetSignal (lastReset : Option (Option Int)) (lastValue : Option Int)
    (cycle : Cycle) (capturedAt : Int) (marker : Option Int) (remaining : Int) : Bool :=
  primarySignal lastReset marker ||
    (!primarySignal lastReset marker && fallbackSignal cycle capturedAt lastValue remaining)

/-- Cycle end instant on reset (part_005 lines 127-130): `capturedAt`, moved
back to the recorded reset date when that date has already passed. -/
def closeEndTime (cycle : Cycle) (capturedAt : Int) : Int :=
  match cycle.resetDate with
  | some rd => if rd < capturedAt then rd else capturedAt
  | none => capturedAt

/-- The fresh cycle opened on first observation or right after a reset:
created by `CreateCopilotCycle` and given its initial stats by
`UpdateCopilotCycle(name, currentUsed, 0)` (part_005 lines 91-97, 137-142). -/
def freshActive (n : String) (capturedAt : Int) (marker : Option Int) (used : Int) : Cycle :=
  { quotaName := n, cycleStart := capturedAt, cycleEnd := none,
    peakUsed := used, totalDelta := 0, resetDate := marker }

/-- Stats update within an open cycle, no reset (part_005 lines 158-186):
with a previously recorded remaining value, a positive drop in remaining is
added to `totalDelta` and `peakUsed` is raised to `currentUsed` if larger;
without one (fresh tracker over an existing store, or an unseen quota name)
only the peak may rise. -/
def noResetUpdate (hasLV : Bool) (lastValue : Option Int) (cycle : Cycle)
    (q : CopilotQuota) : Cycle :=
  if hasLV then
    match lastValue with
    | some lastRemaining =>
        let usageDelta := lastRemaining - q.remaining
        let c1 := if 0 < usageDelta then
            { cycle with totalDelta := cycle.totalDelta + usageDelta } else cycle
        if c1.peakUsed < currentUsedOf q then { c1 with peakUsed := currentUsedOf q } else c1
    | none =>
        if cycle.peakUsed < currentUsedOf q then
          { cycle with peakUsed := currentUsedOf q } else cycle
  else
    if cycle.peakUsed < currentUsedOf q then
      { cycle with peakUsed := currentUsedOf q } else cycle

/-- Per-quota cycle detection and tracking (part_005, processQuota).
`failSet` injects storage failures by quota name (spec §7: storage errors are
the only error source here); a failing name errors at the initial
`QueryActiveCopilotCycle`.  Returns the new state and the list of quota names
the `onReset` callback was invoked with. -/
def processQuota (failSet : String → Bool) (t : TrackerState) (quota : CopilotQuota)
    (capturedAt : Int) (marker : Option Int) :
    Except String (TrackerState × List String) :=
  let quotaName := quota.name
  let currentUsed := currentUsedOf quota
  if failSet quotaName then
    Except.error "failed to query active cycle"
  else
    match t.store.queryActiveCycle quotaName with
    | none =>
        let s2 := (t.store.createCycle quotaName capturedAt marker).updateCycle
          quotaName currentUsed 0
        Except.ok
          ({ t with
              store := s2
              lastValues := updMap t.lastValues quotaName (some quota.remaining)
              lastResets := updMap t.lastResets quotaName (some marker) }, [])
    | some cycle =>
        if resetSignal (t.lastResets quotaName) (t.lastValues quotaName)
            cycle capturedAt marker quota.remaining then
          let s1 := t.store.closeCycle quotaName (closeEndTime cycle capturedAt)
            cycle.peakUsed cycle.totalDelta
          let s3 := (s1.createCycle quotaName capturedAt marker).updateCycle
            quotaName currentUsed 0
          Except.ok
            ({ t with
                store := s3
                lastValues := updMap t.lastValues quotaName (some quota.remaining)
                lastResets := updMap t.lastResets quotaName (some marker) },
             if t.callbackRegistered then [quotaName] else [])
        else
          let c := noResetUpdate t.hasLastValues (t.lastValues quotaName) cycle quota
          Except.ok
            ({ t with
                store := t.store.updateCycle quotaName c.peakUsed c.totalDelta
                lastValues := updMap t.lastValues quotaName (some quota.remaining)
                lastResets := updMap t.lastResets quotaName (some marker) }, [])

/-- Result of one `Process` call: final tracker state, the quota names the
reset callback fired for, and the error (if any). -/
structure ProcessResult where
  state : TrackerState
  fired : List String
  err : Option String

/-- The quota loop of `Process` (part_005 lines 68-72): iterates in snapshot
order and returns at the first per-quota error, wrapped with the quota name. -/
def processQuotas (failSet : String → Bool) (capturedAt : Int) (marker : Option Int) :
    TrackerState → List CopilotQuota → ProcessResult
  | t, [] => { state := t, fired := [], err := none }
  | t, q :: rest =>
      match processQuota failSet t q capturedAt marker with
      | Except.error e =>
          { state := t, fired := [],
            err := some ("copilot tracker: " ++ q.name ++ ": " ++ e) }
      | Except.ok (t2, fired) =>
          let r := processQuotas failSet capturedAt marker t2 rest
          { r with fired := fired ++ r.fired }

/-- `Process` (part_005 lines 62-76): run every quota of the snapshot through
`processQuota`; `hasLastValues` is set only when no quota errored (the Go code
returns before reaching that assignment on error). -/
def Process (failSet : String → Bool) (t : TrackerState) (snap : CopilotSnapshot) :
    ProcessResult :=
  let r := processQuotas failSet snap.capturedAt snap.resetDate t snap.quotas
  match r.err with
  | some _ => r
  | none => { r with state := { r.state with hasLastValues := true } }

/-- A `failSet` injecting no storage failures. -/
def noFail : String → Bool := fun _ => false

/-- Computed usage statistics for one Copilot quota (part_005, CopilotSummary).
Durations (`timeUntilReset`) are Int nanoseconds; Go float64 fields are Rat. -/
structure CopilotSummary where
  quotaName : String
  entitlement : Int
  currentRemaining : Int
  currentUsed : Int
  usagePercent : Rat
  unlimited : Bool
  resetDate : Option Int
  timeUntilReset : Int
  currentRate : Rat
  projectedUsage : Int
  completedCycles : Nat
  avgPerCycle : Rat
  peakCycle : Int
  totalTracked : Int
  trackingSince : Int
  deriving Repr, DecidableEq

/-- Nanoseconds per minute (`time.Duration.Minutes` divides by this). -/
def nsPerMinute : Int := 60 * 1000000000

/-- Nanoseconds per hour (`time.Duration.Hours` divides by this). -/
def nsPerHour : Int := 3600 * 1000000000

/-- Go `int(x)` conversion of a float: truncation toward zero. -/
def ratTrunc (q : Rat) : Int :=
  if q < 0 then -((-q).floor) else q.floor

/-- A nanosecond duration in minutes (`time.Duration.Minutes`). -/
def minutesOf (d : Int) : Rat :=
  (d : Rat) / (nsPerMinute : Rat)

/-- A nanosecond duration in hours (`time.Duration.Hours`). -/
def hoursOf (d : Int) : Rat :=
  (d : Rat) / (nsPerHour : Rat)

/-- The zero-valued summary for a quota name, with its completed-cycle count
(part_005 lines 205-208). -/
def baseSummary (quotaName : String) (completed : Nat) : CopilotSummary :=
  { quotaName := quotaName, entitlement := 0, currentRemaining := 0, currentUsed := 0,
    usagePercent := 0, unlimited := false, resetDate := none, timeUntilReset := 0,
    currentRate := 0, projectedUsage := 0, completedCycles := completed,
    avgPerCycle := 0, peakCycle := 0, totalTracked := 0, trackingSince := 0 }

/-- Stats over the closed-cycle history (part_005 lines 211-223): the Go code
sets `TrackingSince` from `history[len(history)-1]`, the LAST element of the
returned list, then accumulates `totalDelta` and the peak over all of them. -/
def summaryFromHistory (quotaName : String) (history : List Cycle) : CopilotSummary :=
  let base := baseSummary quotaName history.length
  match history.getLast? with
  | none => base
  | some lastC =>
      let totalDelta : Int := (history.map (fun c => c.totalDelta)).sum
      let peak := history.foldl (fun acc c => if acc < c.peakUsed then c.peakUsed else acc) 0
      { base with
          trackingSince := lastC.cycleStart
          avgPerCycle := (totalDelta : Rat) / (history.length : Rat)
          totalTracked := totalDelta
          peakCycle := peak }

/-- `UsageSummary` (part_005 lines 194-277).  `now` stands for the wall clock
read by `time.Until` / `time.Since`.  The storage error paths are not modelled
(no claim concerns them); a missing active cycle or latest snapshot follows
the nil paths of the source. -/
def UsageSummary (t : TrackerState) (now : Int) (quotaName : String) : CopilotSummary :=
  let activeCycle := t.store.queryActiveCycle quotaName
  let history := t.store.queryCycleHistory quotaName
  let s1 := summaryFromHistory quotaName history
  match activeCycle with
  | none => s1
  | some ac =>
      let s2 := { s1 with
          totalTracked := s1.totalTracked + ac.totalDelta
          peakCycle := if s1.peakCycle < ac.peakUsed then ac.peakUsed else s1.peakCycle }
      let s3 := match ac.resetDate with
        | some rd => { s2 with resetDate := some rd, timeUntilReset := rd - now }
        | none => s2
      match t.store.latest with
      | none => s3
      | some latest =>
          let s4 := match latest.quotas.find? (fun q => q.name == quotaName) with
            | some q =>
                let s := { s3 with
                    entitlement := q.entitlement
                    currentRemaining := q.remaining
                    currentUsed := q.entitlement - q.remaining
                    usagePercent := 100 - q.percentRemaining
                    unlimited := q.unlimited }
                match s.resetDate, latest.resetDate with
                | none, some rd => { s with resetDate := some rd, timeUntilReset := rd - now }
                | _, _ => s
            | none => s3
          let elapsed := now - ac.cycleStart
          if 30 ≤ minutesOf elapsed ∧ 0 < ac.totalDelta then
            let rate : Rat := (ac.totalDelta : Rat) / hoursOf elapsed
            let s5 := { s4 with currentRate := rate }
            match s5.resetDate with
            | some rd =>
                if 0 < s5.entitlement then
                  let hoursLeft : Rat := hoursOf (rd - now)
                  if 0 < hoursLeft then
                    let projected := s5.currentUsed + ratTrunc (rate * hoursLeft)
                    { s5 with projectedUsage :=
                        if s5.entitlement < projected then s5.entitlement else projected }
                  else s5
                else s5
            | none => s5
          else s4

/-- Decidable name-consistency of the stored active cycle for one quota name:
the open cycle registered under `n`, if any, carries `n` as its `quotaName`.
Every cycle the tracker itself creates satisfies this. -/
def ownNameOk (t : TrackerState) (n : String) : Bool :=
  match t.store.queryActiveCycle n with
  | some c => c.quotaName == n
  | none => true

/-- The per-quota outcome of one `processQuota` run, phrased against the
processing-time view of that quota's own entries (`activeQ`, `lastV`, `lastR`,
`hasLV`, `histQ`): a fresh cycle on first observation, close-and-reopen on a
reset, stats accumulation otherwise. -/
def QuotaOutcome (activeQ : Option Cycle) (lastV : Option Int)
    (lastR : Option (Option Int)) (hasLV : Bool) (histQ : List Cycle)
    (capturedAt : Int) (marker : Option Int) (q : CopilotQuota)
    (tf : TrackerState) : Prop :=
  match activeQ with
  | none =>
      tf.store.queryActiveCycle q.name =
          some (freshActive q.name capturedAt marker (currentUsedOf q)) ∧
      tf.store.queryCycleHistory q.name = histQ
  | some cycle =>
      if resetSignal lastR lastV cycle capturedAt marker q.remaining = true then
        tf.store.queryActiveCycle q.name =
            some (freshActive q.name capturedAt marker (currentUsedOf q)) ∧
        tf.store.queryCycleHistory q.name =
          histQ ++ [{ cycle with cycleEnd := some (closeEndTime cycle capturedAt) }]
      else
        tf.store.queryActiveCycle q.name =
            some (noResetUpdate hasLV lastV cycle q) ∧
        tf.store.queryCycleHistory q.name = histQ

/-! ### Concrete fixtures used by witnesses and counterexamples -/

/-- The store of a fresh deployment: nothing persisted yet. -/
def emptyStore : Store :=
  { active := fun _ => none, history := [], latest := none }

/-- The state of a freshly constructed tracker with a registered reset
callback (NewCopilotTracker followed by SetOnReset). -/
def initialState : TrackerState :=
  { store := emptyStore, lastValues := fun _ => none, lastResets := fun _ => none,
    hasLastValues := false, callbackRegistered := true }

/-- A storage-fault set failing every operation for quota name "a". -/
def failOnA : String → Bool := fun n => n == "a"

/-- Quota reading "a" used by the error-handling scenario. -/
def quotaA : CopilotQuota :=
  { name := "a", entitlement := 100, remaining := 90, percentRemaining := 90,
    unlimited := false }

/-- Quota reading "b" used by the error-handling scenario. -/
def quotaB : CopilotQuota :=
  { name := "b", entitlement := 200, remaining := 150, percentRemaining := 75,
    unlimited := false }

/-- A snapshot carrying quotas "a" and "b" in that order. -/
def snapAB : CopilotSnapshot :=
  { capturedAt := 0, quotas := [quotaA, quotaB], resetDate := some 1000 }

/-- Quota reading "q" used by the single-quota scenarios. -/
def quotaQ : CopilotQuota :=
  { name := "q", entitlement := 100, remaining := 90, percentRemaining := 90,
    unlimited := false }

/-- First snapshot of the marker scenarios: marker 5000. -/
def snapM1 : CopilotSnapshot :=
  { capturedAt := 0, quotas := [quotaQ], resetDate := some 5000 }

/-- Second snapshot of the marker-to-empty scenario: the marker disappears
(reset date absent), observation before the recorded reset date. -/
def snapM2 : CopilotSnapshot :=
  { capturedAt := 3, quotas := [quotaQ], resetDate := none }

/-- Second snapshot of the double-reset scenario: marker changes to 6000. -/
def snapR2 : CopilotSnapshot :=
  { capturedAt := 10, quotas := [quotaQ], resetDate := some 6000 }

/-- Third snapshot of the double-reset scenario: marker changes to 7000. -/
def snapR3 : CopilotSnapshot :=
  { capturedAt := 20, quotas := [quotaQ], resetDate := some 7000 }

/-- An active cycle one hour old with accumulated delta 100, reset due at the
two-hour mark (times in nanoseconds). -/
def cxCycle : Cycle :=
  { quotaName := "q", cycleStart := 0, cycleEnd := none, peakUsed := 50,
    totalDelta := 100, resetDate := some (7200 * 1000000000) }

/-- A latest reading for "q" that is flagged unlimited yet carries a positive
entitlement. -/
def cxQuota : CopilotQuota :=
  { name := "q", entitlement := 1500, remaining := 100, percentRemaining := 0,
    unlimited := true }

/-- The latest stored snapshot of the projection scenario. -/
def cxSnap : CopilotSnapshot :=
  { capturedAt := 0, quotas := [cxQuota], resetDate := some (7200 * 1000000000) }

/-- Tracker state of the projection scenario: active cycle `cxCycle` for "q"
and `cxSnap` as the latest stored snapshot. -/
def cxState : TrackerState :=
  { store := { active := fun n => if n = "q" then some cxCycle else none,
               history := [], latest := some cxSnap },
    lastValues := fun _ => none, lastResets := fun _ => none,
    hasLastValues := true, callbackRegistered := false }

/-- One hour (in nanoseconds) after `cxCycle` started. -/
def cxNow : Int := 3600 * 1000000000

/-- Quota readings for the three-quota independence scenario. -/
def quotaX : CopilotQuota :=
  { name := "x", entitlement := 100, remaining := 80, percentRemaining := 80,
    unlimited := false }

/-- Second quota of the independence scenario, the one whose marker changed. -/
def quotaY : CopilotQuota :=
  { name := "y", entitlement := 200, remaining := 200, percentRemaining := 100,
    unlimited := false }

/-- Third quota of the independence scenario. -/
def quotaZ : CopilotQuota :=
  { name := "z", entitlement := 300, remaining := 250, percentRemaining := 83,
    unlimited := false }

/-- Open cycle for "x" in the independence scenario. -/
def cycX : Cycle :=
  { quotaName := "x", cycleStart := 0, cycleEnd := none, peakUsed := 10,
    totalDelta := 5, resetDate := some 1000 }

/-- Open cycle for "y" in the independence scenario; its marker 900 differs
from the incoming snapshot's marker. -/
def cycY : Cycle :=
  { quotaName := "y", cycleStart := 0, cycleEnd := none, peakUsed := 20,
    totalDelta := 8, resetDate := some 900 }

/-- Open cycle for "z" in the independence scenario. -/
def cycZ : Cycle :=
  { quotaName := "z", cycleStart := 0, cycleEnd := none, peakUsed := 30,
    totalDelta := 9, resetDate := some 1000 }

/-- Tracker state of the independence scenario: three open cycles, the
in-memory maps primed from a previous poll (markers as recorded). -/
def indState : TrackerState :=
  let indActive : String → Option Cycle := fun n =>
    if n = "x" then some cycX
    else if n = "y" then some cycY
    else if n = "z" then some cycZ
    else none
  let indLastValues : String → Option Int := fun n =>
    if n = "x" then some 85 else if n = "y" then some 150
    else if n = "z" then some 255 else none
  let indLastResets : String → Option (Option Int) := fun n =>
    if n = "x" then some (some 1000) else if n = "y" then some (some 900)
    else if n = "z" then some (some 1000) else none
  { store := { active := indActive, history := [], latest := none },
    lastValues := indLastValues, lastResets := indLastResets,
    hasLastValues := true, callbackRegistered := true }

/-- Snapshot of the independence scenario: marker 1000 (unchanged for "x" and
"z", changed from 900 for "y", whose remaining also jumped back up). -/
def indSnap : CopilotSnapshot :=
  { capturedAt := 50, quotas := [quotaX, quotaY, quotaZ], resetDate := some 1000 }

/-- State after the tracker processed `snapM1` from scratch: one open cycle
for "q" (start 0, peak 10, delta 0, reset date 5000), maps primed. -/
def mState : TrackerState :=
  (Process noFail initialState snapM1).state

/-- The open cycle stored in `mState` for "q". -/
def mCycle : Cycle :=
  { quotaName := "q", cycleStart := 0, cycleEnd := none, peakUsed := 10,
    totalDelta := 0, resetDate := some 5000 }

/-- A later reading of "q" with ten more requests used. -/
def quotaQ2 : CopilotQuota :=
  { name := "q", entitlement := 100, remaining := 80, percentRemaining := 80,
    unlimited := false }

/-- Second snapshot of the fallback scenario: same marker, usage grew. -/
def snapF : CopilotSnapshot :=
  { capturedAt := 10, quotas := [quotaQ2], resetDate := some 5000 }

/-- State after `snapM1` then `snapF`: open cycle for "q" with peak 20 and
delta 10, last remaining 80, marker 5000 recorded. -/
def fState : TrackerState :=
  (Process noFail mState snapF).state

/-- The open cycle stored in `fState` for "q". -/
def fCycle : Cycle :=
  { quotaName := "q", cycleStart := 0, cycleEnd := none, peakUsed := 20,
    totalDelta := 10, resetDate := some 5000 }

/-- A pre-existing open cycle inherited from a previous run of the process. -/
def inhCycle : Cycle :=
  { quotaName := "q", cycleStart := 0, cycleEnd := none, peakUsed := 40,
    totalDelta := 25, resetDate := some 5000 }

/-- A freshly constructed tracker over a store that already holds `inhCycle`:
the in-memory maps are empty and `hasLastValues` is false. -/
def inhState : TrackerState :=
  { store := { active := fun n => if n = "q" then some inhCycle else none,
               history := [], latest := none },
    lastValues := fun _ => none, lastResets := fun _ => none,
    hasLastValues := false, callbackRegistered := false }

/-- State after `snapM1`, `snapR2`, `snapR3`: two closed cycles for "q"
(starts 0 and 10, oldest first) and an open one (start 20). -/
def c6State : TrackerState :=
  (Process noFail (Process noFail mState snapR2).state snapR3).state

/-- The older closed cycle in `c6State`. -/
def histCycle1 : Cycle :=
  { quotaName := "q", cycleStart := 0, cycleEnd := some 10, peakUsed := 10,
    totalDelta := 0, resetDate := some 5000 }

/-- The newer closed cycle in `c6State`. -/
def histCycle2 : Cycle :=
  { quotaName := "q", cycleStart := 10, cycleEnd := some 20, peakUsed := 10,
    totalDelta := 0, resetDate := some 6000 }

/-! ### Helper lemmas on the store and the per-quota branches -/

theorem updMap_self {α : Type} (m : String → α) (k : String) (v : α) :
    updMap m k v k = v := by
  simp [updMap]

theorem updMap_ne {α : Type} (m : String → α) (k : String) (v : α) (n : String)
    (h : n ≠ k) : updMap m k v n = m n := by
  simp [updMap, h]

theorem createCycle_active_self (s : Store) (n : String) (start : Int) (rd : Option Int) :
    (s.createCycle n start rd).active n =
      some { quotaName := n, cycleStart := start, cycleEnd := none,
             peakUsed := 0, totalDelta := 0, resetDate := rd } := by
  simp [Store.createCycle]

theorem createCycle_active_ne (s : Store) (n : String) (start : Int) (rd : Option Int)
    (m : String) (h : m ≠ n) : (s.createCycle n start rd).active m = s.active m := by
  simp [Store.createCycle, h]

theorem createCycle_history (s : Store) (n : String) (start : Int) (rd : Option Int) :
    (s.createCycle n start rd).history = s.history := by
  simp [Store.createCycle]

theorem createCycle_latest (s : Store) (n : String) (start : Int) (rd : Option Int) :
    (s.createCycle n start rd).latest = s.latest := by
  simp [Store.createCycle]

theorem updateCycle_active_self (s : Store) (n : String) (p d : Int) :
    (s.updateCycle n p d).active n =
      (s.active n).map (fun c => { c with peakUsed := p, totalDelta := d }) := by
  simp [Store.updateCycle]

theorem updateCycle_active_ne (s : Store) (n : String) (p d : Int) (m : String)
    (h : m ≠ n) : (s.updateCycle n p d).active m = s.active m := by
  simp [Store.updateCycle, h]

theorem updateCycle_history (s : Store) (n : String) (p d : Int) :
    (s.updateCycle n p d).history = s.history := by
  simp [Store.updateCycle]

theorem updateCycle_latest (s : Store) (n : String) (p d : Int) :
    (s.updateCycle n p d).latest = s.latest := by
  simp [Store.updateCycle]

theorem closeCycle_active_self (s : Store) (n : String) (e p d : Int) (c : Cycle)
    (h : s.active n = some c) : (s.closeCycle n e p d).active n = none := by
  simp [Store.closeCycle, h]

theorem closeCycle_active_ne (s : Store) (n : String) (e p d : Int) (m : String)
    (h : m ≠ n) : (s.closeCycle n e p d).active m = s.active m := by
  unfold Store.closeCycle
  cases hc : s.active n <;> simp [hc, h]

theorem closeCycle_history (s : Store) (n : String) (e p d : Int) (c : Cycle)
    (h : s.active n = some c) :
    (s.closeCycle n e p d).history =
      s.history ++ [{ c with cycleEnd := some e, peakUsed := p, totalDelta := d }] := by
  simp [Store.closeCycle, h]

theorem closeCycle_latest (s : Store) (n : String) (e p d : Int) :
    (s.closeCycle n e p d).latest = s.latest := by
  unfold Store.closeCycle
  cases hc : s.active n <;> simp [hc]

/-- Branch equation: first observation of a quota name (no active cycle). -/
theorem processQuota_fresh_eq (failSet : String → Bool) (t : TrackerState)
    (q : CopilotQuota) (capturedAt : Int) (marker : Option Int)
    (hfs : failSet q.name = false)
    (hact : t.store.queryActiveCycle q.name = none) :
    processQuota failSet t q capturedAt marker = Except.ok
      ({ t with
          store := (t.store.createCycle q.name capturedAt marker).updateCycle
            q.name (currentUsedOf q) 0
          lastValues := updMap t.lastValues q.name (some q.remaining)
          lastResets := updMap t.lastResets q.name (some marker) }, []) := by
  simp only [processQuota, hfs, hact, Bool.false_eq_true, if_false]

/-- Branch equation: active cycle present, reset detected. -/
theorem processQuota_reset_eq (failSet : String → Bool) (t : TrackerState)
    (q : CopilotQuota) (capturedAt : Int) (marker : Option Int) (cycle : Cycle)
    (hfs : failSet q.name = false)
    (hact : t.store.queryActiveCycle q.name = some cycle)
    (hr : resetSignal (t.lastResets q.name) (t.lastValues q.name)
            cycle capturedAt marker q.remaining = true) :
    processQuota failSet t q capturedAt marker = Except.ok
      ({ t with
          store := (((t.store.closeCycle q.name (closeEndTime cycle capturedAt)
              cycle.peakUsed cycle.totalDelta).createCycle
                q.name capturedAt marker).updateCycle q.name (currentUsedOf q) 0)
          lastValues := updMap t.lastValues q.name (some q.remaining)
          lastResets := updMap t.lastResets q.name (some marker) },
       if t.callbackRegistered then [q.name] else []) := by
  simp only [processQuota, hfs, hact, hr, Bool.false_eq_true, if_false, if_true]

/-- Branch equation: active cycle present, no reset detected. -/
theorem processQuota_noReset_eq (failSet : String → Bool) (t : TrackerState)
    (q : CopilotQuota) (capturedAt : Int) (marker : Option Int) (cycle : Cycle)
    (hfs : failSet q.name = false)
    (hact : t.store.queryActiveCycle q.name = some cycle)
    (hr : resetSignal (t.lastResets q.name) (t.lastValues q.name)
            cycle capturedAt marker q.remaining = false) :
    processQuota failSet t q capturedAt marker = Except.ok
      ({ t with
          store := t.store.updateCycle q.name
            (noResetUpdate t.hasLastValues (t.lastValues q.name) cycle q).peakUsed
            (noResetUpdate t.hasLastValues (t.lastValues q.name) cycle q).totalDelta
          lastValues := updMap t.lastValues q.name (some q.remaining)
          lastResets := updMap t.lastResets q.name (some marker) }, []) := by
  simp only [processQuota, hfs, hact, hr, Bool.false_eq_true, if_false]

/-- Branch equation: the quota's storage access fails. -/
theorem processQuota_fail_eq (failSet : String → Bool) (t : TrackerState)
    (q : CopilotQuota) (capturedAt : Int) (marker : Option Int)
    (hfs : failSet q.name = true) :
    processQuota failSet t q capturedAt marker =
      Except.error "failed to query active cycle" := by
  simp only [processQuota, hfs, if_true]

/-- Field-level characterization of the no-reset stats update: only `peakUsed`
and `totalDelta` can change; the peak becomes the max with the current used
value, and the delta either stays (no previous value, tracker not primed, or a
non-positive observed delta) or grows by exactly the positive observed delta. -/
theorem noResetUpdate_fields (hasLV : Bool) (lastValue : Option Int) (cycle : Cycle)
    (q : CopilotQuota) :
    (noResetUpdate hasLV lastValue cycle q).quotaName = cycle.quotaName ∧
    (noResetUpdate hasLV lastValue cycle q).cycleStart = cycle.cycleStart ∧
    (noResetUpdate hasLV lastValue cycle q).cycleEnd = cycle.cycleEnd ∧
    (noResetUpdate hasLV lastValue cycle q).resetDate = cycle.resetDate ∧
    (noResetUpdate hasLV lastValue cycle q).peakUsed = max cycle.peakUsed (currentUsedOf q) ∧
    ((noResetUpdate hasLV lastValue cycle q).totalDelta = cycle.totalDelta ∨
      (hasLV = true ∧ ∃ lr, lastValue = some lr ∧ 0 < lr - q.remaining ∧
        (noResetUpdate hasLV lastValue cycle q).totalDelta =
          cycle.totalDelta + (lr - q.remaining))) := by
  obtain ⟨cqn, ccs, cce, cpu, ctd, crd⟩ := cycle
  cases hasLV with
  | false =>
      simp only [noResetUpdate, Bool.false_eq_true, if_false]
      split_ifs with h <;>
        exact ⟨rfl, rfl, rfl, rfl, by dsimp only at h ⊢; omega, Or.inl rfl⟩
  | true =>
      cases lastValue with
      | none =>
          simp only [noResetUpdate, if_true]
          split_ifs with h <;>
            exact ⟨rfl, rfl, rfl, rfl, by dsimp only at h ⊢; omega, Or.inl rfl⟩
      | some lr =>
          simp only [noResetUpdate, if_true]
          split_ifs with h1 h2 h3
          · exact ⟨rfl, rfl, rfl, rfl, by dsimp only at h2 ⊢; omega,
              Or.inr ⟨by trivial, lr, rfl, h1, rfl⟩⟩
          · exact ⟨rfl, rfl, rfl, rfl, by dsimp only at h2 ⊢; omega,
              Or.inr ⟨by trivial, lr, rfl, h1, rfl⟩⟩
          · exact ⟨rfl, rfl, rfl, rfl, by dsimp only at h3 ⊢; omega, Or.inl rfl⟩
          · exact ⟨rfl, rfl, rfl, rfl, by dsimp only at h3 ⊢; omega, Or.inl rfl⟩

/-- The no-reset update written back by `UpdateCopilotCycle` coincides with
`noResetUpdate` itself (the update only rewrites `peakUsed`/`totalDelta`). -/
theorem noResetUpdate_collapse (hasLV : Bool) (lastValue : Option Int) (cycle : Cycle)
    (q : CopilotQuota) :
    { cycle with
        peakUsed := (noResetUpdate hasLV lastValue cycle q).peakUsed
        totalDelta := (noResetUpdate hasLV lastValue cycle q).totalDelta } =
      noResetUpdate hasLV lastValue cycle q := by
  cases hasLV <;> [skip; cases lastValue] <;>
    simp only [noResetUpdate, Bool.false_eq_true, if_false, if_true] <;>
    split_ifs <;> rfl

/-- With no storage fault injected for its name, `processQuota` cannot fail. -/
theorem processQuota_ok_of_notFail (failSet : String → Bool) (t : TrackerState)
    (q : CopilotQuota) (capturedAt : Int) (marker : Option Int)
    (hfs : failSet q.name = false) :
    ∃ r, processQuota failSet t q capturedAt marker = Except.ok r := by
  cases hact : t.store.queryActiveCycle q.name with
  | none => exact ⟨_, processQuota_fresh_eq failSet t q capturedAt marker hfs hact⟩
  | some cycle =>
      cases hr : resetSignal (t.lastResets q.name) (t.lastValues q.name)
          cycle capturedAt marker q.remaining with
      | true => exact ⟨_, processQuota_reset_eq failSet t q capturedAt marker cycle hfs hact hr⟩
      | false => exact ⟨_, processQuota_noReset_eq failSet t q capturedAt marker cycle hfs hact hr⟩

/-! ### C9: first observation creates one fresh cycle -/

/-- C9: the first time a quota name is observed (no active cycle in the
store), `processQuota` creates exactly one active cycle with
`cycleStart = capturedAt`, `peakUsed = entitlement - remaining` and
`totalDelta = 0`, leaving the closed-cycle history untouched; the delta
computation is bypassed entirely (the result does not depend on
`lastValues`/`hasLastValues`). -/
theorem first_snapshot_creates_cycle (t : TrackerState) (q : CopilotQuota)
    (capturedAt : Int) (marker : Option Int)
    (h : t.store.queryActiveCycle q.name = none) :
    ∃ t2, processQuota noFail t q capturedAt marker = Except.ok (t2, []) ∧
      t2.store.queryActiveCycle q.name =
        some { quotaName := q.name, cycleStart := capturedAt, cycleEnd := none,
               peakUsed := q.entitlement - q.remaining, totalDelta := 0,
               resetDate := marker } ∧
      t2.store.history = t.store.history := by
  refine ⟨_, processQuota_fresh_eq noFail t q capturedAt marker rfl h, ?_, ?_⟩
  · show ((t.store.createCycle q.name capturedAt marker).updateCycle
        q.name (currentUsedOf q) 0).active q.name = _
    rw [updateCycle_active_self, createCycle_active_self]
    rfl
  · show ((t.store.createCycle q.name capturedAt marker).updateCycle
        q.name (currentUsedOf q) 0).history = _
    rw [updateCycle_history, createCycle_history]

/-- Witness for C9 at a concrete fresh tracker and reading. -/
theorem first_snapshot_creates_cycle_witness :
    ∃ t2, processQuota noFail initialState quotaQ 7 (some 5000) = Except.ok (t2, []) ∧
      t2.store.queryActiveCycle "q" =
        some { quotaName := "q", cycleStart := 7, cycleEnd := none,
               peakUsed := 10, totalDelta := 0, resetDate := some 5000 } ∧
      t2.store.history = initialState.store.history := by
  have h := first_snapshot_creates_cycle initialState quotaQ 7 (some 5000) rfl
  simpa [quotaQ] using h

/-- After close-create-update, the filtered history for the name gained the
closed cycle (with its final peak and delta) and nothing else. -/
theorem resetStore_history (s : Store) (n : String) (e : Int) (cycle : Cycle)
    (hact : s.active n = some cycle) (hname : cycle.quotaName = n)
    (cap : Int) (marker : Option Int) (used : Int) :
    (((s.closeCycle n e cycle.peakUsed cycle.totalDelta).createCycle
        n cap marker).updateCycle n used 0).queryCycleHistory n =
      s.queryCycleHistory n ++ [{ cycle with cycleEnd := some e }] := by
  unfold Store.queryCycleHistory
  rw [updateCycle_history, createCycle_history, closeCycle_history s n e _ _ cycle hact]
  obtain ⟨cqn, ccs, cce, cpu, ctd, crd⟩ := cycle
  subst hname
  simp

/-- After close-create-update, the open cycle for the name is the fresh one. -/
theorem resetStore_active (s : Store) (n : String) (e p d cap used : Int)
    (marker : Option Int) :
    (((s.closeCycle n e p d).createCycle n cap marker).updateCycle
        n used 0).queryActiveCycle n = some (freshActive n cap marker used) := by
  unfold Store.queryActiveCycle
  rw [updateCycle_active_self, createCycle_active_self]
  rfl

/-! ### C2: a detected reset closes the cycle at the right boundary -/

/-- C2: when a reset is detected for a quota with an active cycle whose
recorded reset date is `rd`, `processQuota` closes the old cycle with
`cycleEnd = min capturedAt rd` (the earlier of the observation instant and the
scheduled reset instant), persisting its recorded `peakUsed`/`totalDelta`
unmodified; it opens exactly one new active cycle with `totalDelta = 0`, and
the registered `onReset` callback fires exactly once with that quota name. -/
theorem reset_closes_and_reopens (t : TrackerState) (q : CopilotQuota)
    (capturedAt rd : Int) (marker : Option Int) (cycle : Cycle)
    (hact : t.store.queryActiveCycle q.name = some cycle)
    (hname : cycle.quotaName = q.name)
    (hrd : cycle.resetDate = some rd)
    (hreset : resetSignal (t.lastResets q.name) (t.lastValues q.name)
        cycle capturedAt marker q.remaining = true)
    (hcb : t.callbackRegistered = true) :
    ∃ t2, processQuota noFail t q capturedAt marker = Except.ok (t2, [q.name]) ∧
      t2.store.queryCycleHistory q.name =
        t.store.queryCycleHistory q.name ++
          [{ cycle with cycleEnd := some (min capturedAt rd) }] ∧
      t2.store.queryActiveCycle q.name =
        some (freshActive q.name capturedAt marker (currentUsedOf q)) ∧
      (freshActive q.name capturedAt marker (currentUsedOf q)).totalDelta = 0 := by
  have hact' : t.store.active q.name = some cycle := hact
  have hce : closeEndTime cycle capturedAt = min capturedAt rd := by
    simp only [closeEndTime, hrd]
    split_ifs with h <;> omega
  have heq := processQuota_reset_eq noFail t q capturedAt marker cycle rfl hact hreset
  rw [hcb] at heq
  refine ⟨_, heq, ?_, ?_, rfl⟩
  · rw [← hce]
    exact resetStore_history t.store q.name (closeEndTime cycle capturedAt) cycle
      hact' hname capturedAt marker (currentUsedOf q)
  · exact resetStore_active t.store q.name (closeEndTime cycle capturedAt)
      cycle.peakUsed cycle.totalDelta capturedAt (currentUsedOf q) marker

/-- Witness for C2: a marker change from 5000 to 6000 at `capturedAt = 10`
(before the recorded reset date 5000, so the boundary is 10). -/
theorem reset_closes_and_reopens_witness :
    ∃ t2, processQuota noFail mState quotaQ 10 (some 6000) = Except.ok (t2, ["q"]) ∧
      t2.store.queryCycleHistory "q" =
        mState.store.queryCycleHistory "q" ++
          [{ mCycle with cycleEnd := some (min 10 5000) }] ∧
      t2.store.queryActiveCycle "q" =
        some (freshActive "q" 10 (some 6000) (currentUsedOf quotaQ)) ∧
      (freshActive "q" 10 (some 6000) (currentUsedOf quotaQ)).totalDelta = 0 := by
  exact reset_closes_and_reopens mState quotaQ 10 5000 (some 6000) mCycle
    (by decide) (by decide) (by decide) (by decide) (by decide)

/-! ### C3: within an open cycle the statistics are monotone -/

/-- C3: a `processQuota` call that keeps the cycle open (no reset detected)
leaves `cycleStart`/`cycleEnd` unchanged, sets `peakUsed` to the max of the
stored peak and the current used value (hence non-decreasing), and leaves
`totalDelta` unchanged unless the observed drop in remaining
(`lastRemaining - remaining`, the observed delta in used) is strictly
positive, in which case it grows by exactly that amount — so a zero or
negative observed delta contributes exactly 0 and both statistics are
non-decreasing across any sequence of such calls. -/
theorem open_cycle_stats_monotone (t : TrackerState) (q : CopilotQuota)
    (capturedAt : Int) (marker : Option Int) (cycle : Cycle)
    (hact : t.store.queryActiveCycle q.name = some cycle)
    (hnores : resetSignal (t.lastResets q.name) (t.lastValues q.name)
        cycle capturedAt marker q.remaining = false) :
    ∃ t2 c2, processQuota noFail t q capturedAt marker = Except.ok (t2, []) ∧
      t2.store.queryActiveCycle q.name = some c2 ∧
      c2.cycleStart = cycle.cycleStart ∧ c2.cycleEnd = cycle.cycleEnd ∧
      c2.peakUsed = max cycle.peakUsed (currentUsedOf q) ∧
      cycle.peakUsed ≤ c2.peakUsed ∧ cycle.totalDelta ≤ c2.totalDelta ∧
      (c2.totalDelta = cycle.totalDelta ∨
        (t.hasLastValues = true ∧ ∃ lr, t.lastValues q.name = some lr ∧
          0 < lr - q.remaining ∧
          c2.totalDelta = cycle.totalDelta + (lr - q.remaining))) := by
  have hact' : t.store.active q.name = some cycle := hact
  have heq := processQuota_noReset_eq noFail t q capturedAt marker cycle rfl hact hnores
  obtain ⟨hf1, hf2, hf3, hf4, hf5, hf6⟩ :=
    noResetUpdate_fields t.hasLastValues (t.lastValues q.name) cycle q
  refine ⟨_, noResetUpdate t.hasLastValues (t.lastValues q.name) cycle q,
    heq, ?_, hf2, hf3, hf5, ?_, ?_, hf6⟩
  · show (t.store.updateCycle q.name _ _).active q.name = _
    rw [updateCycle_active_self, hact']
    simp only [Option.map_some']
    rw [noResetUpdate_collapse]
  · rw [hf5]
    exact le_max_left _ _
  · rcases hf6 with he | ⟨_, lr, _, hpos, he⟩ <;> omega

/-- Witness for C3: remaining drops 90 → 80 within the open cycle, the delta
grows by exactly 10 and the peak rises to 20. -/
theorem open_cycle_stats_monotone_witness :
    ∃ t2 c2, processQuota noFail mState quotaQ2 10 (some 5000) = Except.ok (t2, []) ∧
      t2.store.queryActiveCycle "q" = some c2 ∧
      c2.cycleStart = mCycle.cycleStart ∧ c2.cycleEnd = mCycle.cycleEnd ∧
      c2.peakUsed = max mCycle.peakUsed (currentUsedOf quotaQ2) ∧
      mCycle.peakUsed ≤ c2.peakUsed ∧ mCycle.totalDelta ≤ c2.totalDelta ∧
      (c2.totalDelta = mCycle.totalDelta ∨
        (mState.hasLastValues = true ∧ ∃ lr, mState.lastValues "q" = some lr ∧
          0 < lr - quotaQ2.remaining ∧
          c2.totalDelta = mCycle.totalDelta + (lr - quotaQ2.remaining))) := by
  exact open_cycle_stats_monotone mState quotaQ2 10 (some 5000) mCycle
    (by decide) (by decide)

/-! ### C10: an inherited cycle never receives a spurious delta -/

/-- C10: if a quota name has an active cycle in the store but no entry in
this tracker instance's in-memory `lastValues` map (e.g. the first `Process`
call of a freshly constructed tracker over a pre-existing store) and no reset
is detected, the cycle's `totalDelta` is left unchanged — only `peakUsed` may
rise to the current used value — and the closed-cycle history is untouched. -/
theorem inherited_cycle_no_spurious_delta (t : TrackerState) (q : CopilotQuota)
    (capturedAt : Int) (marker : Option Int) (cycle : Cycle)
    (hact : t.store.queryActiveCycle q.name = some cycle)
    (hlv : t.lastValues q.name = none)
    (hnores : resetSignal (t.lastResets q.name) (t.lastValues q.name)
        cycle capturedAt marker q.remaining = false) :
    ∃ t2 c2, processQuota noFail t q capturedAt marker = Except.ok (t2, []) ∧
      t2.store.queryActiveCycle q.name = some c2 ∧
      c2.totalDelta = cycle.totalDelta ∧
      c2.peakUsed = max cycle.peakUsed (currentUsedOf q) ∧
      c2.cycleStart = cycle.cycleStart ∧ c2.cycleEnd = cycle.cycleEnd ∧
      t2.store.queryCycleHistory q.name = t.store.queryCycleHistory q.name := by
  have hact' : t.store.active q.name = some cycle := hact
  have heq := processQuota_noReset_eq noFail t q capturedAt marker cycle rfl hact hnores
  obtain ⟨hf1, hf2, hf3, hf4, hf5, hf6⟩ :=
    noResetUpdate_fields t.hasLastValues (t.lastValues q.name) cycle q
  have hdelta : (noResetUpdate t.hasLastValues (t.lastValues q.name) cycle q).totalDelta
      = cycle.totalDelta := by
    rcases hf6 with he | ⟨_, lr, hsome, _, _⟩
    · exact he
    · rw [hlv] at hsome
      cases hsome
  refine ⟨_, noResetUpdate t.hasLastValues (t.lastValues q.name) cycle q,
    heq, ?_, hdelta, hf5, hf2, hf3, ?_⟩
  · show (t.store.updateCycle q.name _ _).active q.name = _
    rw [updateCycle_active_self, hact']
    simp only [Option.map_some']
    rw [noResetUpdate_collapse]
  · show (t.store.updateCycle q.name _ _).queryCycleHistory q.name = _
    unfold Store.queryCycleHistory
    rw [updateCycle_history]

/-- Witness for C10: a fresh tracker over a store holding `inhCycle`
(delta 25) processes a reading with used 20; the delta stays 25 and the peak
stays 40. -/
theorem inherited_cycle_no_spurious_delta_witness :
    ∃ t2 c2, processQuota noFail inhState quotaQ2 100 (some 5000) = Except.ok (t2, []) ∧
      t2.store.queryActiveCycle "q" = some c2 ∧
      c2.totalDelta = inhCycle.totalDelta ∧
      c2.peakUsed = max inhCycle.peakUsed (currentUsedOf quotaQ2) ∧
      c2.cycleStart = inhCycle.cycleStart ∧ c2.cycleEnd = inhCycle.cycleEnd ∧
      t2.store.queryCycleHistory "q" = inhState.store.queryCycleHistory "q" := by
  exact inherited_cycle_no_spurious_delta inhState quotaQ2 100 (some 5000) inhCycle
    (by decide) (by decide) (by decide)

/-! ### C5: the time-based fallback reset signal -/

/-- C5: with an active cycle and the primary marker signal not firing, the
tracker detects a reset exactly when the cycle's recorded reset date exists
and has passed (`resetDate < capturedAt`) and the observed remaining value is
strictly greater than the last recorded remaining; when it fires the cycle is
closed and a fresh one opened, and when remaining did not increase or the
reset date has not passed, the cycle stays open and the history unchanged. -/
theorem fallback_reset_detection (t : TrackerState) (q : CopilotQuota)
    (capturedAt : Int) (marker : Option Int) (cycle : Cycle)
    (hact : t.store.queryActiveCycle q.name = some cycle)
    (hname : cycle.quotaName = q.name)
    (hprim : primarySignal (t.lastResets q.name) marker = false) :
    (resetSignal (t.lastResets q.name) (t.lastValues q.name) cycle capturedAt marker
        q.remaining = true ↔
      ((∃ rd, cycle.resetDate = some rd ∧ rd < capturedAt) ∧
       (∃ lr, t.lastValues q.name = some lr ∧ lr < q.remaining))) ∧
    (resetSignal (t.lastResets q.name) (t.lastValues q.name) cycle capturedAt marker
        q.remaining = true →
      ∃ t2 fired, processQuota noFail t q capturedAt marker = Except.ok (t2, fired) ∧
        t2.store.queryCycleHistory q.name =
          t.store.queryCycleHistory q.name ++
            [{ cycle with cycleEnd := some (closeEndTime cycle capturedAt) }] ∧
        t2.store.queryActiveCycle q.name =
          some (freshActive q.name capturedAt marker (currentUsedOf q))) ∧
    (resetSignal (t.lastResets q.name) (t.lastValues q.name) cycle capturedAt marker
        q.remaining = false →
      ∃ t2 c2, processQuota noFail t q capturedAt marker = Except.ok (t2, []) ∧
        t2.store.queryCycleHistory q.name = t.store.queryCycleHistory q.name ∧
        t2.store.queryActiveCycle q.name = some c2 ∧
        c2.cycleStart = cycle.cycleStart ∧ c2.cycleEnd = cycle.cycleEnd) := by
  have hact' : t.store.active q.name = some cycle := hact
  refine ⟨?_, ?_, ?_⟩
  · simp only [resetSignal, hprim, Bool.false_or, Bool.not_false, Bool.true_and,
      fallbackSignal]
    cases hrd : cycle.resetDate with
    | none => simp
    | some rd =>
        cases hlv : t.lastValues q.name with
        | none => simp
        | some lr => simp
  · intro hr
    have heq := processQuota_reset_eq noFail t q capturedAt marker cycle rfl hact hr
    refine ⟨_, _, heq, ?_, ?_⟩
    · exact resetStore_history t.store q.name (closeEndTime cycle capturedAt) cycle
        hact' hname capturedAt marker (currentUsedOf q)
    · exact resetStore_active t.store q.name (closeEndTime cycle capturedAt)
        cycle.peakUsed cycle.totalDelta capturedAt (currentUsedOf q) marker
  · intro hr
    have heq := processQuota_noReset_eq noFail t q capturedAt marker cycle rfl hact hr
    obtain ⟨hf1, hf2, hf3, hf4, hf5, hf6⟩ :=
      noResetUpdate_fields t.hasLastValues (t.lastValues q.name) cycle q
    refine ⟨_, noResetUpdate t.hasLastValues (t.lastValues q.name) cycle q,
      heq, ?_, ?_, hf2, hf3⟩
    · show (t.store.updateCycle q.name _ _).queryCycleHistory q.name = _
      unfold Store.queryCycleHistory
      rw [updateCycle_history]
    · show (t.store.updateCycle q.name _ _).active q.name = _
      rw [updateCycle_active_self, hact']
      simp only [Option.map_some']
      rw [noResetUpdate_collapse]

/-- Witness for C5: reset date 5000 passed (`capturedAt = 6000`), remaining
rose from 80 to 90 with an unchanged marker — the fallback fires. -/
theorem fallback_reset_detection_witness :
    (resetSignal (fState.lastResets "q") (fState.lastValues "q") fCycle 6000
        (some 5000) quotaQ.remaining = true ↔
      ((∃ rd, fCycle.resetDate = some rd ∧ rd < 6000) ∧
       (∃ lr, fState.lastValues "q" = some lr ∧ lr < quotaQ.remaining))) ∧
    (resetSignal (fState.lastResets "q") (fState.lastValues "q") fCycle 6000
        (some 5000) quotaQ.remaining = true →
      ∃ t2 fired, processQuota noFail fState quotaQ 6000 (some 5000) =
          Except.ok (t2, fired) ∧
        t2.store.queryCycleHistory "q" =
          fState.store.queryCycleHistory "q" ++
            [{ fCycle with cycleEnd := some (closeEndTime fCycle 6000) }] ∧
        t2.store.queryActiveCycle "q" =
          some (freshActive "q" 6000 (some 5000) (currentUsedOf quotaQ))) ∧
    (resetSignal (fState.lastResets "q") (fState.lastValues "q") fCycle 6000
        (some 5000) quotaQ.remaining = false →
      ∃ t2 c2, processQuota noFail fState quotaQ 6000 (some 5000) = Except.ok (t2, []) ∧
        t2.store.queryCycleHistory "q" = fState.store.queryCycleHistory "q" ∧
        t2.store.queryActiveCycle "q" = some c2 ∧
        c2.cycleStart = fCycle.cycleStart ∧ c2.cycleEnd = fCycle.cycleEnd) := by
  exact fallback_reset_detection fState quotaQ 6000 (some 5000) fCycle
    (by decide) (by decide) (by decide)

/-! ### C4: the primary marker signal (corrected) -/

/-- C4 counterexample: after `snapM1` the recorded marker for "q" is the
non-empty 5000; the next snapshot carries an absent marker (the empty
string).  The claim says any change away from a non-empty previous marker —
including to an empty marker — triggers the primary reset signal, but the
code requires the current marker to be non-empty too: `primarySignal` is
false, no cycle is closed (history stays empty) and the cycle stays open
unchanged. -/
theorem marker_change_to_empty_counterexample :
    mState.lastResets "q" = some (some 5000) ∧
    primarySignal (mState.lastResets "q") none = false ∧
    (processQuota noFail mState quotaQ 3 none).toOption.map
        (fun r => (r.1.store.queryCycleHistory "q",
                   r.1.store.queryActiveCycle "q", r.2)) =
      some ([], some mCycle, []) := by
  refine ⟨by decide, by decide, by decide⟩

/-- C4 (amended): the primary reset signal fires exactly when the previously
recorded marker exists and is non-empty, the current marker is also
non-empty, and the two differ; a change from a non-empty marker to an
empty/absent one does not fire it (it can only be caught by the fallback). -/
theorem primary_signal_iff (lastReset : Option (Option Int)) (marker : Option Int) :
    primarySignal lastReset marker = true ↔
      ∃ prev cur, lastReset = some (some prev) ∧ marker = some cur ∧ cur ≠ prev := by
  cases lastReset with
  | none => simp [primarySignal]
  | some o =>
      cases o with
      | none => simp [primarySignal]
      | some prev =>
          cases marker with
          | none => simp [primarySignal]
          | some cur => simp [primarySignal]

/-! ### C1: error handling across the quotas of one snapshot (corrected) -/

/-- The quota loop stops at the first failing quota: earlier quotas are fully
processed, the failing quota's wrapped error is returned, later quotas are
never reached. -/
theorem processQuotas_stops (failSet : String → Bool) (capturedAt : Int)
    (marker : Option Int) (f : CopilotQuota) (post : List CopilotQuota)
    (hf : failSet f.name = true) :
    ∀ (pre : List CopilotQuota), (∀ p ∈ pre, failSet p.name = false) →
      ∀ t : TrackerState,
        processQuotas failSet capturedAt marker t (pre ++ f :: post) =
          { state := (processQuotas failSet capturedAt marker t pre).state
            fired := (processQuotas failSet capturedAt marker t pre).fired
            err := some ("copilot tracker: " ++ f.name ++ ": " ++
              "failed to query active cycle") }
  | [], _, t => by
      simp only [List.nil_append, processQuotas,
        processQuota_fail_eq failSet t f capturedAt marker hf]
  | p :: pre, hpre, t => by
      obtain ⟨⟨t2, fired⟩, heq⟩ := processQuota_ok_of_notFail failSet t p capturedAt
        marker (hpre p (List.mem_cons_self p pre))
      have ih := processQuotas_stops failSet capturedAt marker f post hf pre
        (fun x hx => hpre x (List.mem_cons_of_mem p hx)) t2
      simp only [List.cons_append, processQuotas, heq, List.append_eq, ih]

/-- C1 (amended): if some quota of the snapshot fails with a storage error,
`Process` aborts at the first failing quota in snapshot order: quotas before
it are fully processed (their callbacks included), the returned error is the
single wrapped error of that quota — tagged with its name, not an aggregate —
quotas after it are not updated at all, and `hasLastValues` is not set. -/
theorem process_stops_at_first_failure (failSet : String → Bool) (t : TrackerState)
    (snap : CopilotSnapshot) (pre : List CopilotQuota) (f : CopilotQuota)
    (post : List CopilotQuota)
    (hsplit : snap.quotas = pre ++ f :: post)
    (hpre : ∀ p ∈ pre, failSet p.name = false)
    (hf : failSet f.name = true) :
    Process failSet t snap =
      { state := (processQuotas failSet snap.capturedAt snap.resetDate t pre).state
        fired := (processQuotas failSet snap.capturedAt snap.resetDate t pre).fired
        err := some ("copilot tracker: " ++ f.name ++ ": " ++
          "failed to query active cycle") } := by
  unfold Process
  rw [hsplit, processQuotas_stops failSet snap.capturedAt snap.resetDate f post hf
    pre hpre t]

/-- Witness for C1's amended statement: "a" fails, nothing precedes it. -/
theorem process_stops_at_first_failure_witness :
    Process failOnA initialState snapAB =
      { state := (processQuotas failOnA snapAB.capturedAt snapAB.resetDate
          initialState []).state
        fired := (processQuotas failOnA snapAB.capturedAt snapAB.resetDate
          initialState []).fired
        err := some ("copilot tracker: " ++ "a" ++ ": " ++
          "failed to query active cycle") } := by
  exact process_stops_at_first_failure failOnA initialState snapAB [] quotaA [quotaB]
    (by decide) (by simp) (by decide)

/-- C1 counterexample: quota "a" fails its storage access while "b" follows
it in the same snapshot.  The claim says "b" is still updated and an
aggregated error is returned; the code instead returns immediately with the
single error of "a", and "b" — fresh here — never gets its cycle created. -/
theorem process_abort_counterexample :
    (Process failOnA initialState snapAB).err =
      some "copilot tracker: a: failed to query active cycle" ∧
    (Process failOnA initialState snapAB).state.store.queryActiveCycle "b" = none ∧
    (Process failOnA initialState snapAB).state.hasLastValues = false := by
  refine ⟨by decide, by decide, by decide⟩

/-! ### C6: trackingSince (corrected) -/

/-- The history rollup never sets a rate; its `currentRate` is zero. -/
theorem summaryFromHistory_currentRate (n : String) (hist : List Cycle) :
    (summaryFromHistory n hist).currentRate = 0 := by
  unfold summaryFromHistory
  cases hist.getLast? <;> rfl

/-- The history rollup never sets a reset date; its `resetDate` is `none`. -/
theorem summaryFromHistory_resetDate (n : String) (hist : List Cycle) :
    (summaryFromHistory n hist).resetDate = none := by
  unfold summaryFromHistory
  cases hist.getLast? <;> rfl

/-- The history rollup takes `trackingSince` from the last list element. -/
theorem summaryFromHistory_trackingSince (n : String) (hs : List Cycle) (c : Cycle) :
    (summaryFromHistory n (hs ++ [c])).trackingSince = c.cycleStart := by
  unfold summaryFromHistory
  rw [List.getLast?_concat]

/-- C6 counterexample: after two resets the closed-cycle history for "q" is
`[start 0, start 10]` — oldest first, as the spec's storage contract orders
it — yet `trackingSince` is 10, the start of the NEWEST closed cycle, not 0,
the start of the oldest, because the code reads `history[len(history)-1]`. -/
theorem tracking_since_counterexample :
    (c6State.store.queryCycleHistory "q").map (fun c => c.cycleStart) = [0, 10] ∧
    (UsageSummary c6State 30 "q").trackingSince = 10 := by
  refine ⟨by decide, by decide⟩

/-- C6 (amended): `UsageSummary` sets `trackingSince` to the `cycleStart` of
the LAST element of the list returned by the cycle-history query; under the
spec's oldest-first ordering that is the newest closed cycle, not the oldest. -/
theorem tracking_since_last_element (t : TrackerState) (now : Int) (n : String)
    (hs : List Cycle) (c : Cycle)
    (hh : t.store.queryCycleHistory n = hs ++ [c]) :
    (UsageSummary t now n).trackingSince = c.cycleStart := by
  have hts := summaryFromHistory_trackingSince n hs c
  have hrdS := summaryFromHistory_resetDate n (hs ++ [c])
  unfold UsageSummary
  rw [hh]
  cases hac : t.store.queryActiveCycle n with
  | none => exact hts
  | some ac =>
      dsimp only []
      cases hrd : ac.resetDate with
      | some rd =>
          dsimp only []
          cases hl : t.store.latest with
          | none => exact hts
          | some latest =>
              dsimp only []
              cases hf : List.find? (fun q => q.name == n) latest.quotas
              all_goals dsimp only []
              all_goals try split_ifs
              all_goals try dsimp only []
              all_goals exact hts
      | none =>
          dsimp only []
          cases hl : t.store.latest with
          | none => exact hts
          | some latest =>
              dsimp only []
              cases hf : List.find? (fun q => q.name == n) latest.quotas
              all_goals dsimp only []
              all_goals rw [hrdS]
              all_goals try cases hlr : latest.resetDate
              all_goals try dsimp only []
              all_goals try split_ifs
              all_goals try dsimp only []
              all_goals exact hts

/-- Witness for C6's amended statement at the two-reset run. -/
theorem tracking_since_last_element_witness :
    (UsageSummary c6State 30 "q").trackingSince = histCycle2.cycleStart := by
  exact tracking_since_last_element c6State 30 "q" [histCycle1] histCycle2 (by decide)

/-! ### C7: rate and projection (corrected) -/

/-- The rate-and-projection branch of `UsageSummary`, fully reduced: with an
active cycle, a latest snapshot listing the quota, a known reset date on the
cycle, a cycle at least 30 minutes old with positive delta, positive listed
entitlement and a reset still in the future, the summary carries
`rate = totalDelta / elapsedHours` and the clamped linear projection. -/
theorem usageSummary_rate_proj (t : TrackerState) (now : Int) (n : String)
    (ac : Cycle) (latest : CopilotSnapshot) (qq : CopilotQuota) (rd : Int)
    (hac : t.store.queryActiveCycle n = some ac)
    (hl : t.store.latest = some latest)
    (hfind : List.find? (fun q => q.name == n) latest.quotas = some qq)
    (hard : ac.resetDate = some rd)
    (h30 : 30 ≤ minutesOf (now - ac.cycleStart))
    (hdelta : 0 < ac.totalDelta)
    (hent : 0 < qq.entitlement)
    (hhours : 0 < hoursOf (rd - now)) :
    (UsageSummary t now n).currentRate =
        (ac.totalDelta : Rat) / hoursOf (now - ac.cycleStart) ∧
    (UsageSummary t now n).unlimited = qq.unlimited ∧
    (UsageSummary t now n).projectedUsage =
      min qq.entitlement
        ((qq.entitlement - qq.remaining) +
          ratTrunc (((ac.totalDelta : Rat) / hoursOf (now - ac.cycleStart)) *
            hoursOf (rd - now))) := by
  unfold UsageSummary
  rw [hac, hl]
  dsimp only []
  rw [hard]
  dsimp only []
  rw [hfind]
  dsimp only []
  rw [if_pos (And.intro h30 hdelta)]
  try dsimp only []
  rw [if_pos hent]
  try dsimp only []
  rw [if_pos hhours]
  try dsimp only []
  refine ⟨rfl, rfl, ?_⟩
  rw [min_def]
  split_ifs with h1 h2 <;> omega

/-- `ratTrunc` of the rational 100 is the integer 100. -/
theorem ratTrunc_hundred : ratTrunc 100 = 100 := by
  have h : (100 : Rat).floor = (⌊(100 : ℚ)⌋ : Int) := rfl
  unfold ratTrunc
  rw [if_neg (by norm_num), h]
  simp

/-- In the projection scenario the cycle is 60 minutes old. -/
theorem cx_thirty_le : (30 : Rat) ≤ minutesOf (cxNow - cxCycle.cycleStart) := by
  norm_num [minutesOf, nsPerMinute, cxNow, cxCycle]

/-- In the projection scenario one hour remains until the reset. -/
theorem cx_hours_pos : (0 : Rat) < hoursOf (7200 * 1000000000 - cxNow) := by
  norm_num [hoursOf, nsPerHour, cxNow]

/-- In the projection scenario the extrapolation term evaluates to 100. -/
theorem cx_arg_eq :
    ((cxCycle.totalDelta : Rat) / hoursOf (cxNow - cxCycle.cycleStart)) *
      hoursOf (7200 * 1000000000 - cxNow) = 100 := by
  norm_num [cxCycle, cxNow, hoursOf, nsPerHour]

/-- C7 counterexample: `cxState` holds an active cycle one hour old with
delta 100 and a latest reading that is flagged unlimited but carries
entitlement 1500.  The claim says `projectedUsage` is computed only when the
quota is not unlimited; the code only checks `Entitlement > 0` and never
reads the `Unlimited` flag, so it projects 1400 + 100·1 = 1500 for this
unlimited quota. -/
theorem projection_unlimited_counterexample :
    (UsageSummary cxState cxNow "q").unlimited = true ∧
    (UsageSummary cxState cxNow "q").currentRate = 100 ∧
    (UsageSummary cxState cxNow "q").projectedUsage = 1500 := by
  obtain ⟨hr, hu, hp⟩ := usageSummary_rate_proj cxState cxNow "q" cxCycle cxSnap
    cxQuota (7200 * 1000000000) rfl rfl rfl rfl cx_thirty_le (by decide)
    (by decide) cx_hours_pos
  refine ⟨?_, ?_, ?_⟩
  · rw [hu]
    decide
  · rw [hr]
    norm_num [cxCycle, cxNow, hoursOf, nsPerHour]
  · rw [hp, cx_arg_eq, ratTrunc_hundred]
    norm_num [cxQuota]

/-- C7 (amended): `currentRate` is nonzero only when an active cycle exists
that has been running at least 30 minutes with strictly positive
`totalDelta`; and when additionally the latest stored snapshot lists the
quota, the cycle carries a reset time that still lies in the future, and the
listed entitlement is positive — the `unlimited` flag is never consulted —
the rate is `totalDelta / elapsedHours` and `projectedUsage` is
`currentUsed + trunc(rate * hoursLeft)` clamped to the entitlement. -/
theorem rate_and_projection (t : TrackerState) (now : Int) (n : String) :
    ((UsageSummary t now n).currentRate ≠ 0 →
      ∃ ac, t.store.queryActiveCycle n = some ac ∧
        30 ≤ minutesOf (now - ac.cycleStart) ∧ 0 < ac.totalDelta) ∧
    (∀ ac latest qq rd,
      t.store.queryActiveCycle n = some ac →
      t.store.latest = some latest →
      List.find? (fun q => q.name == n) latest.quotas = some qq →
      ac.resetDate = some rd →
      30 ≤ minutesOf (now - ac.cycleStart) →
      0 < ac.totalDelta →
      0 < qq.entitlement →
      0 < hoursOf (rd - now) →
      (UsageSummary t now n).currentRate =
          (ac.totalDelta : Rat) / hoursOf (now - ac.cycleStart) ∧
      (UsageSummary t now n).unlimited = qq.unlimited ∧
      (UsageSummary t now n).projectedUsage =
        min qq.entitlement
          ((qq.entitlement - qq.remaining) +
            ratTrunc (((ac.totalDelta : Rat) / hoursOf (now - ac.cycleStart)) *
              hoursOf (rd - now)))) := by
  have hrate0 := summaryFromHistory_currentRate n (t.store.queryCycleHistory n)
  have hrdS0 := summaryFromHistory_resetDate n (t.store.queryCycleHistory n)
  constructor
  · intro hne
    cases hac : t.store.queryActiveCycle n with
    | none =>
        exfalso
        apply hne
        unfold UsageSummary
        rw [hac]
        exact hrate0
    | some ac =>
        cases hl : t.store.latest with
        | none =>
            exfalso
            apply hne
            unfold UsageSummary
            rw [hac, hl]
            dsimp only []
            cases hrd : ac.resetDate <;> dsimp only [] <;> exact hrate0
        | some latest =>
            by_cases hcond : 30 ≤ minutesOf (now - ac.cycleStart) ∧ 0 < ac.totalDelta
            · exact ⟨ac, rfl, hcond.1, hcond.2⟩
            · exfalso
              apply hne
              unfold UsageSummary
              rw [hac, hl]
              dsimp only []
              rw [if_neg hcond]
              cases hrd : ac.resetDate with
              | some rd =>
                  dsimp only []
                  cases hf : List.find? (fun q => q.name == n) latest.quotas <;>
                    dsimp only [] <;> exact hrate0
              | none =>
                  dsimp only []
                  cases hf : List.find? (fun q => q.name == n) latest.quotas with
                  | none =>
                      dsimp only []
                      exact hrate0
                  | some qq =>
                      dsimp only []
                      rw [hrdS0]
                      cases hlr : latest.resetDate <;> dsimp only [] <;> exact hrate0
  · intro ac latest qq rd hac hl hfind hard h30 hdelta hent hhours
    exact usageSummary_rate_proj t now n ac latest qq rd hac hl hfind hard
      h30 hdelta hent hhours

/-- Witness for C7's amended statement at the projection scenario. -/
theorem rate_and_projection_witness :
    (UsageSummary cxState cxNow "q").currentRate =
        (cxCycle.totalDelta : Rat) / hoursOf (cxNow - cxCycle.cycleStart) ∧
    (UsageSummary cxState cxNow "q").unlimited = cxQuota.unlimited ∧
    (UsageSummary cxState cxNow "q").projectedUsage =
      min cxQuota.entitlement
        ((cxQuota.entitlement - cxQuota.remaining) +
          ratTrunc (((cxCycle.totalDelta : Rat) / hoursOf (cxNow - cxCycle.cycleStart)) *
            hoursOf (7200 * 1000000000 - cxNow))) := by
  exact (rate_and_projection cxState cxNow "q").2 cxCycle cxSnap cxQuota
    (7200 * 1000000000) rfl rfl rfl rfl cx_thirty_le (by decide) (by decide)
    cx_hours_pos

/-! ### C8: multi-quota independence -/

/-- Unpacking the boolean name-consistency check. -/
theorem ownNameOk_spec (t : TrackerState) (n : String) (h : ownNameOk t n = true) :
    ∀ c, t.store.queryActiveCycle n = some c → c.quotaName = n := by
  intro c hc
  unfold ownNameOk at h
  rw [hc] at h
  exact eq_of_beq h

/-- Closing one quota's cycle does not disturb the filtered history of any
other quota name. -/
theorem resetStore_history_ne (s : Store) (n : String) (e : Int) (cycle : Cycle)
    (hact : s.active n = some cycle) (hname : cycle.quotaName = n)
    (cap : Int) (marker : Option Int) (used : Int) (m : String) (hm : m ≠ n) :
    (((s.closeCycle n e cycle.peakUsed cycle.totalDelta).createCycle
        n cap marker).updateCycle n used 0).queryCycleHistory m =
      s.queryCycleHistory m := by
  unfold Store.queryCycleHistory
  rw [updateCycle_history, createCycle_history, closeCycle_history s n e _ _ cycle hact]
  rw [List.filter_append]
  obtain ⟨cqn, ccs, cce, cpu, ctd, crd⟩ := cycle
  subst hname
  simp [Ne.symm hm]

/-- `QuotaOutcome` only inspects the final state through the quota's own
active-cycle and history entries, so it transports along states that agree
there. -/
theorem QuotaOutcome_transport (activeQ : Option Cycle) (lastV : Option Int)
    (lastR : Option (Option Int)) (hasLV : Bool) (histQ : List Cycle)
    (capturedAt : Int) (marker : Option Int) (q : CopilotQuota)
    (t2 t3 : TrackerState)
    (h : QuotaOutcome activeQ lastV lastR hasLV histQ capturedAt marker q t2)
    (ha : t3.store.queryActiveCycle q.name = t2.store.queryActiveCycle q.name)
    (hh : t3.store.queryCycleHistory q.name = t2.store.queryCycleHistory q.name) :
    QuotaOutcome activeQ lastV lastR hasLV histQ capturedAt marker q t3 := by
  unfold QuotaOutcome at h ⊢
  cases activeQ with
  | none => exact ⟨ha.trans h.1, hh.trans h.2⟩
  | some cycle =>
      dsimp only [] at h ⊢
      split_ifs at h ⊢ with hc
      · exact ⟨ha.trans h.1, hh.trans h.2⟩
      · exact ⟨ha.trans h.1, hh.trans h.2⟩

/-- One `processQuota` step with no fault: it succeeds, realizes the
per-quota outcome against the pre-state views, leaves every other quota
name's entries untouched, preserves the bookkeeping flags and the latest
snapshot, and keeps the name-consistency of its own entry. -/
theorem processQuota_outcome (t : TrackerState) (q : CopilotQuota)
    (capturedAt : Int) (marker : Option Int)
    (hcons : ∀ c, t.store.queryActiveCycle q.name = some c → c.quotaName = q.name) :
    ∃ t2 fired, processQuota noFail t q capturedAt marker = Except.ok (t2, fired) ∧
      QuotaOutcome (t.store.queryActiveCycle q.name) (t.lastValues q.name)
        (t.lastResets q.name) t.hasLastValues (t.store.queryCycleHistory q.name)
        capturedAt marker q t2 ∧
      t2.hasLastValues = t.hasLastValues ∧
      t2.callbackRegistered = t.callbackRegistered ∧
      t2.store.latest = t.store.latest ∧
      (∀ m, m ≠ q.name →
        t2.store.queryActiveCycle m = t.store.queryActiveCycle m ∧
        t2.lastValues m = t.lastValues m ∧
        t2.lastResets m = t.lastResets m ∧
        t2.store.queryCycleHistory m = t.store.queryCycleHistory m) ∧
      (∀ c, t2.store.queryActiveCycle q.name = some c → c.quotaName = q.name) := by
  cases hact : t.store.queryActiveCycle q.name with
  | none =>
      refine ⟨_, _, processQuota_fresh_eq noFail t q capturedAt marker rfl hact,
        ?_, rfl, rfl, ?_, ?_, ?_⟩
      · unfold QuotaOutcome
        constructor
        · show ((t.store.createCycle q.name capturedAt marker).updateCycle
              q.name (currentUsedOf q) 0).active q.name = _
          rw [updateCycle_active_self, createCycle_active_self]
          rfl
        · show ((t.store.createCycle q.name capturedAt marker).updateCycle
              q.name (currentUsedOf q) 0).queryCycleHistory q.name = _
          unfold Store.queryCycleHistory
          rw [updateCycle_history, createCycle_history]
      · show ((t.store.createCycle q.name capturedAt marker).updateCycle
            q.name (currentUsedOf q) 0).latest = _
        rw [updateCycle_latest, createCycle_latest]
      · intro m hm
        refine ⟨?_, updMap_ne _ _ _ _ hm, updMap_ne _ _ _ _ hm, ?_⟩
        · show ((t.store.createCycle q.name capturedAt marker).updateCycle
              q.name (currentUsedOf q) 0).active m = _
          rw [updateCycle_active_ne _ _ _ _ _ hm, createCycle_active_ne _ _ _ _ _ hm]
          rfl
        · show ((t.store.createCycle q.name capturedAt marker).updateCycle
              q.name (currentUsedOf q) 0).queryCycleHistory m = _
          unfold Store.queryCycleHistory
          rw [updateCycle_history, createCycle_history]
      · intro c hc
        have hx : ((t.store.createCycle q.name capturedAt marker).updateCycle
            q.name (currentUsedOf q) 0).active q.name =
              some (freshActive q.name capturedAt marker (currentUsedOf q)) := by
          rw [updateCycle_active_self, createCycle_active_self]
          rfl
        rw [show (({ t with
            store := (t.store.createCycle q.name capturedAt marker).updateCycle
              q.name (currentUsedOf q) 0
            lastValues := updMap t.lastValues q.name (some q.remaining)
            lastResets := updMap t.lastResets q.name (some marker) } :
              TrackerState).store.queryActiveCycle q.name) =
          some (freshActive q.name capturedAt marker (currentUsedOf q)) from hx] at hc
        cases hc
        rfl
  | some cycle =>
      have hname := hcons cycle hact
      have hact' : t.store.active q.name = some cycle := hact
      cases hr : resetSignal (t.lastResets q.name) (t.lastValues q.name)
          cycle capturedAt marker q.remaining with
      | true =>
          refine ⟨_, _, processQuota_reset_eq noFail t q capturedAt marker cycle rfl hact hr,
            ?_, rfl, rfl, ?_, ?_, ?_⟩
          · unfold QuotaOutcome
            dsimp only []
            rw [if_pos hr]
            constructor
            · exact resetStore_active t.store q.name (closeEndTime cycle capturedAt)
                cycle.peakUsed cycle.totalDelta capturedAt (currentUsedOf q) marker
            · exact resetStore_history t.store q.name (closeEndTime cycle capturedAt)
                cycle hact' hname capturedAt marker (currentUsedOf q)
          · show ((((t.store.closeCycle q.name (closeEndTime cycle capturedAt)
                cycle.peakUsed cycle.totalDelta).createCycle q.name capturedAt
                  marker).updateCycle q.name (currentUsedOf q) 0)).latest = _
            rw [updateCycle_latest, createCycle_latest, closeCycle_latest]
          · intro m hm
            refine ⟨?_, updMap_ne _ _ _ _ hm, updMap_ne _ _ _ _ hm, ?_⟩
            · show ((((t.store.closeCycle q.name (closeEndTime cycle capturedAt)
                  cycle.peakUsed cycle.totalDelta).createCycle q.name capturedAt
                    marker).updateCycle q.name (currentUsedOf q) 0)).active m = _
              rw [updateCycle_active_ne _ _ _ _ _ hm, createCycle_active_ne _ _ _ _ _ hm,
                closeCycle_active_ne _ _ _ _ _ _ hm]
              rfl
            · exact resetStore_history_ne t.store q.name (closeEndTime cycle capturedAt)
                cycle hact' hname capturedAt marker (currentUsedOf q) m hm
          · intro c hc
            have hx := resetStore_active t.store q.name (closeEndTime cycle capturedAt)
              cycle.peakUsed cycle.totalDelta capturedAt (currentUsedOf q) marker
            rw [show (({ t with
                store := ((t.store.closeCycle q.name (closeEndTime cycle capturedAt)
                  cycle.peakUsed cycle.totalDelta).createCycle q.name capturedAt
                    marker).updateCycle q.name (currentUsedOf q) 0
                lastValues := updMap t.lastValues q.name (some q.remaining)
                lastResets := updMap t.lastResets q.name (some marker) } :
                  TrackerState).store.queryActiveCycle q.name) =
              some (freshActive q.name capturedAt marker (currentUsedOf q)) from hx] at hc
            cases hc
            rfl
      | false =>
          refine ⟨_, _, processQuota_noReset_eq noFail t q capturedAt marker cycle rfl hact hr,
            ?_, rfl, rfl, ?_, ?_, ?_⟩
          · unfold QuotaOutcome
            dsimp only []
            rw [if_neg (by simp [hr])]
            constructor
            · show (t.store.updateCycle q.name _ _).active q.name = _
              rw [updateCycle_active_self, hact']
              simp only [Option.map_some']
              rw [noResetUpdate_collapse]
            · show (t.store.updateCycle q.name _ _).queryCycleHistory q.name = _
              unfold Store.queryCycleHistory
              rw [updateCycle_history]
          · show (t.store.updateCycle q.name _ _).latest = _
            rw [updateCycle_latest]
          · intro m hm
            refine ⟨?_, updMap_ne _ _ _ _ hm, updMap_ne _ _ _ _ hm, ?_⟩
            · show (t.store.updateCycle q.name _ _).active m = _
              rw [updateCycle_active_ne _ _ _ _ _ hm]
              rfl
            · show (t.store.updateCycle q.name _ _).queryCycleHistory m = _
              unfold Store.queryCycleHistory
              rw [updateCycle_history]
          · intro c hc
            have hx : (t.store.updateCycle q.name
                (noResetUpdate t.hasLastValues (t.lastValues q.name) cycle q).peakUsed
                (noResetUpdate t.hasLastValues (t.lastValues q.name) cycle q).totalDelta).active
                  q.name =
                some (noResetUpdate t.hasLastValues (t.lastValues q.name) cycle q) := by
              rw [updateCycle_active_self, hact']
              simp only [Option.map_some']
              rw [noResetUpdate_collapse]
            rw [show (({ t with
                store := t.store.updateCycle q.name
                  (noResetUpdate t.hasLastValues (t.lastValues q.name) cycle q).peakUsed
                  (noResetUpdate t.hasLastValues (t.lastValues q.name) cycle q).totalDelta
                lastValues := updMap t.lastValues q.name (some q.remaining)
                lastResets := updMap t.lastResets q.name (some marker) } :
                  TrackerState).store.queryActiveCycle q.name) =
              some (noResetUpdate t.hasLastValues (t.lastValues q.name) cycle q) from hx] at hc
            cases hc
            rw [(noResetUpdate_fields t.hasLastValues (t.lastValues q.name) cycle q).1]
            exact hname

/-- Folding the quota loop over distinct, name-consistent quota names: no
error, names outside the snapshot keep their entries, and every quota in the
snapshot realizes its per-quota outcome against the initial state's views. -/
theorem processQuotas_outcome (capturedAt : Int) (marker : Option Int) :
    ∀ (qs : List CopilotQuota) (t : TrackerState),
      ((qs.map (fun q => q.name)).Nodup) →
      (∀ q ∈ qs, ∀ c, t.store.queryActiveCycle q.name = some c → c.quotaName = q.name) →
      (processQuotas noFail capturedAt marker t qs).err = none ∧
      (∀ m, (∀ q ∈ qs, q.name ≠ m) →
        (processQuotas noFail capturedAt marker t qs).state.store.queryActiveCycle m =
          t.store.queryActiveCycle m ∧
        (processQuotas noFail capturedAt marker t qs).state.store.queryCycleHistory m =
          t.store.queryCycleHistory m) ∧
      ∀ q ∈ qs, QuotaOutcome (t.store.queryActiveCycle q.name) (t.lastValues q.name)
        (t.lastResets q.name) t.hasLastValues (t.store.queryCycleHistory q.name)
        capturedAt marker q (processQuotas noFail capturedAt marker t qs).state
  | [], t, _, _ => by simp [processQuotas]
  | p :: rest, t, hnodup, hcons => by
      obtain ⟨t2, fired, heq, houtp, hhas, hcb, hlat, hframe, hconsp⟩ :=
        processQuota_outcome t p capturedAt marker
          (hcons p (List.mem_cons_self p rest))
      have hnd := List.nodup_cons.mp
        (show (p.name :: rest.map (fun q => q.name)).Nodup from hnodup)
      have hnotin : p.name ∉ rest.map (fun q => q.name) := hnd.1
      have hnodup' : ((rest.map (fun q => q.name)).Nodup) := hnd.2
      have hneOf : ∀ q ∈ rest, q.name ≠ p.name := by
        intro q hq h
        exact hnotin (h ▸ List.mem_map_of_mem (fun q => q.name) hq)
      have hcons' : ∀ q ∈ rest, ∀ c,
          t2.store.queryActiveCycle q.name = some c → c.quotaName = q.name := by
        intro q hq c hc
        rw [(hframe q.name (hneOf q hq)).1] at hc
        exact hcons q (List.mem_cons_of_mem p hq) c hc
      obtain ⟨iherr, ihframe, ihout⟩ :=
        processQuotas_outcome capturedAt marker rest t2 hnodup' hcons'
      have hres : processQuotas noFail capturedAt marker t (p :: rest) =
          { state := (processQuotas noFail capturedAt marker t2 rest).state
            fired := fired ++ (processQuotas noFail capturedAt marker t2 rest).fired
            err := (processQuotas noFail capturedAt marker t2 rest).err } := by
        simp [processQuotas, heq]
      rw [hres]
      refine ⟨iherr, ?_, ?_⟩
      · intro m hm
        have h1 := hframe m (Ne.symm (hm p (List.mem_cons_self p rest)))
        have h2 := ihframe m (fun q hq => hm q (List.mem_cons_of_mem p hq))
        exact ⟨h2.1.trans h1.1, h2.2.trans h1.2.2.2⟩
      · intro q hq
        rcases List.mem_cons.mp hq with hqp | hq'
        · subst hqp
          have hfr := ihframe q.name (hneOf · ·)
          exact QuotaOutcome_transport _ _ _ _ _ capturedAt marker q t2 _ houtp
            hfr.1 hfr.2
        · have hx := ihout q hq'
          have h4 := hframe q.name (hneOf q hq')
          rw [h4.1, h4.2.1, h4.2.2.1, h4.2.2.2, hhas] at hx
          exact hx

/-- C8: for a snapshot whose quota names are distinct (and whose stored open
cycles carry their own names), `Process` succeeds, and each quota's cycle
evolves independently: the quota whose reading satisfies the reset condition
gets its cycle closed into the history and exactly one fresh active cycle
(totalDelta 0), while every other quota's cycle stays open with the same
boundaries, its statistics only accumulating, and its history untouched —
one quota's reset never disturbs its siblings. -/
theorem multi_quota_independence (t : TrackerState) (snap : CopilotSnapshot)
    (hnodup : (snap.quotas.map (fun q => q.name)).Nodup)
    (hcons : ∀ q ∈ snap.quotas, ownNameOk t q.name = true) :
    (Process noFail t snap).err = none ∧
    ∀ q ∈ snap.quotas, ∀ cycle, t.store.queryActiveCycle q.name = some cycle →
      (resetSignal (t.lastResets q.name) (t.lastValues q.name) cycle snap.capturedAt
          snap.resetDate q.remaining = true →
        (Process noFail t snap).state.store.queryActiveCycle q.name =
            some (freshActive q.name snap.capturedAt snap.resetDate (currentUsedOf q)) ∧
        (Process noFail t snap).state.store.queryCycleHistory q.name =
          t.store.queryCycleHistory q.name ++
            [{ cycle with cycleEnd := some (closeEndTime cycle snap.capturedAt) }]) ∧
      (resetSignal (t.lastResets q.name) (t.lastValues q.name) cycle snap.capturedAt
          snap.resetDate q.remaining = false →
        ∃ c2, (Process noFail t snap).state.store.queryActiveCycle q.name = some c2 ∧
          c2.cycleStart = cycle.cycleStart ∧ c2.cycleEnd = cycle.cycleEnd ∧
          cycle.peakUsed ≤ c2.peakUsed ∧ cycle.totalDelta ≤ c2.totalDelta ∧
          (Process noFail t snap).state.store.queryCycleHistory q.name =
            t.store.queryCycleHistory q.name) := by
  obtain ⟨herr, hframe, hout⟩ := processQuotas_outcome snap.capturedAt snap.resetDate
    snap.quotas t hnodup (fun q hq => ownNameOk_spec t q.name (hcons q hq))
  have he : (Process noFail t snap).err = none := by
    simp [Process, herr]
  have hs : (Process noFail t snap).state.store =
      (processQuotas noFail snap.capturedAt snap.resetDate t snap.quotas).state.store := by
    simp [Process, herr]
  refine ⟨he, ?_⟩
  intro q hq cycle hcyc
  have ho := hout q hq
  rw [hcyc] at ho
  unfold QuotaOutcome at ho
  dsimp only [] at ho
  constructor
  · intro hsig
    rw [if_pos hsig] at ho
    rw [hs]
    exact ho
  · intro hsig
    rw [if_neg (by simp [hsig])] at ho
    obtain ⟨hf1, hf2, hf3, hf4, hf5, hf6⟩ :=
      noResetUpdate_fields t.hasLastValues (t.lastValues q.name) cycle q
    refine ⟨noResetUpdate t.hasLastValues (t.lastValues q.name) cycle q,
      by rw [hs]; exact ho.1, hf2, hf3, ?_, ?_, by rw [hs]; exact ho.2⟩
    · rw [hf5]
      exact le_max_left _ _
    · rcases hf6 with he6 | ⟨_, lr, _, hpos, he6⟩ <;> omega

/-- Witness for C8 at the three-quota scenario: only "y" satisfies the
reset condition (marker changed from 900 to 1000); its cycle is closed and
reopened while "x" keeps its open cycle and history. -/
theorem multi_quota_independence_witness :
    (Process noFail indState indSnap).err = none ∧
    ((Process noFail indState indSnap).state.store.queryActiveCycle "y" =
        some (freshActive "y" 50 (some 1000) (currentUsedOf quotaY)) ∧
      (Process noFail indState indSnap).state.store.queryCycleHistory "y" =
        indState.store.queryCycleHistory "y" ++
          [{ cycY with cycleEnd := some (closeEndTime cycY 50) }]) ∧
    (∃ c2, (Process noFail indState indSnap).state.store.queryActiveCycle "x" =
        some c2 ∧
      c2.cycleStart = cycX.cycleStart ∧ c2.cycleEnd = cycX.cycleEnd ∧
      cycX.peakUsed ≤ c2.peakUsed ∧ cycX.totalDelta ≤ c2.totalDelta ∧
      (Process noFail indState indSnap).state.store.queryCycleHistory "x" =
        indState.store.queryCycleHistory "x") := by
  obtain ⟨herr, hall⟩ := multi_quota_independence indState indSnap (by decide) (by decide)
  refine ⟨herr, ?_, ?_⟩
  · exact (hall quotaY (by decide) cycY (by decide)).1 (by decide)
  · exact (hall quotaX (by decide) cycX (by decide)).2 (by decide)

end OnWatch
